import Mathlib

/-
Verification of the Spirit Hamiltonian API layer (core/src/Spirit/Hamiltonian.cpp).

The C API functions are embedded as pure functions on an explicit `State`,
each returning its result together with the event trace it produces
(lock/unlock events, Hamiltonian field accesses, log messages), following
the statement order of the C++ source.  Scalars (C++ float/scalar) are
modelled as real numbers.  Parts of the repository that the API layer calls
but whose sources are not available (index resolution, the exception
handler, the physical constant mu_B, the Heisenberg update routines and the
neighbour-pair generation) are modelled from the specification; each such
definition carries a doc comment saying so.
-/

namespace Spirit

noncomputable section

/-- A 3-component vector of scalars, as Eigen Vector3 in the sources. -/
structure Vector3 where
  x : ℝ
  y : ℝ
  z : ℝ

/-- The zero vector. -/
def Vector3.zero : Vector3 := ⟨0, 0, 0⟩

/-- Squared Euclidean norm of a 3-vector. -/
def Vector3.normSq (v : Vector3) : ℝ := v.x ^ 2 + v.y ^ 2 + v.z ^ 2

/-- Euclidean norm of a 3-vector. -/
def Vector3.norm (v : Vector3) : ℝ := Real.sqrt v.normSq

/-- Scalar multiple of a 3-vector. -/
def Vector3.smul (t : ℝ) (v : Vector3) : Vector3 := ⟨t * v.x, t * v.y, t * v.z⟩

/-- Componentwise difference of 3-vectors. -/
def Vector3.sub (a b : Vector3) : Vector3 := ⟨a.x - b.x, a.y - b.y, a.z - b.z⟩

/-- The Eigen normalize() operation: divide the vector by its Euclidean norm. -/
def Vector3.normalize (v : Vector3) : Vector3 :=
  ⟨v.x / v.norm, v.y / v.norm, v.z / v.norm⟩

/-- An interaction pair: two site indices plus a periodic-image translation. -/
structure Pair where
  i : ℕ
  j : ℕ
  da : ℤ
  db : ℤ
  dc : ℤ
deriving DecidableEq

/-- Modelled from the spec: the lattice geometry, reduced to the data the
API layer reads (`n_cell_atoms`) and the site positions the pair generator
needs.  The full Geometry class is not among the sources. -/
structure Geometry where
  n_cell_atoms : ℕ
  positions : List Vector3

/-- Parameter fields of Engine::Hamiltonian_Heisenberg that the API layer
reads and writes.  The class itself is not among the sources; the field
list is taken from its uses in Hamiltonian.cpp, with the derived pair lists
and the cached contribution list modelled from the spec. -/
structure Heisenberg where
  mu_s : List ℝ
  external_field_magnitude : ℝ
  external_field_normal : Vector3
  anisotropy_indices : List ℤ
  anisotropy_magnitudes : List ℝ
  anisotropy_normals : List Vector3
  exchange_shell_magnitudes : List ℝ
  exchange_pairs_in : List Pair
  exchange_magnitudes_in : List ℝ
  exchange_pairs : List Pair
  exchange_magnitudes : List ℝ
  dmi_shell_magnitudes : List ℝ
  dmi_shell_chirality : ℤ
  dmi_pairs_in : List Pair
  dmi_magnitudes_in : List ℝ
  dmi_normals_in : List Vector3
  dmi_pairs : List Pair
  dmi_magnitudes : List ℝ
  dmi_normals : List Vector3
  ddi_cutoff_radius : ℝ
  ddi_pairs : List Pair
  ddi_magnitudes : List ℝ
  ddi_normals : List Vector3
  energy_contributions : List String

/-- Parameters of Engine::Hamiltonian_Gaussian (engine/Hamiltonian_Gaussian.hpp). -/
structure Gaussian where
  n_gaussians : ℤ
  amplitude : List ℝ
  width : List ℝ
  center : List Vector3

/-- The concrete Hamiltonian variant held by an image. -/
inductive HamVariant
  | heisenberg : Heisenberg → HamVariant
  | gaussian : Gaussian → HamVariant

/-- The polymorphic Hamiltonian: the per-axis boundary conditions of the
base class together with the concrete variant. -/
structure Hamiltonian where
  boundary_conditions : Bool × Bool × Bool
  variant : HamVariant

/-- The virtual Name() of the Hamiltonian hierarchy. -/
def Hamiltonian.name (h : Hamiltonian) : String :=
  match h.variant with
  | HamVariant.heisenberg _ => "Heisenberg"
  | HamVariant.gaussian _ => "Gaussian"

/-- The Heisenberg parameters of a Hamiltonian, when it is that variant. -/
def Hamiltonian.heis (h : Hamiltonian) : Option Heisenberg :=
  match h.variant with
  | HamVariant.heisenberg hh => some hh
  | HamVariant.gaussian _ => none

/-- A simulation image (Data::Spin_System): its Hamiltonian, its geometry
and its number of spins. -/
structure Image where
  hamiltonian : Hamiltonian
  geometry : Geometry
  nos : ℕ

/-- The process state: the images of the (single modelled) chain. -/
structure State where
  images : List Image

/-- Replace the image at a given position. -/
def State.setImage (s : State) (n : ℕ) (img : Image) : State :=
  ⟨s.images.set n img⟩

/-- The Heisenberg parameters of the image at a position, when that image
exists and holds the Heisenberg variant. -/
def State.heisAt (s : State) (n : ℕ) : Option Heisenberg :=
  match s.images[n]? with
  | some img => img.hamiltonian.heis
  | none => none

/-- The single modelled internal fault: image/chain resolution failure. -/
inductive SpiritError
  | resolutionFailure
deriving DecidableEq

/-- Modelled from the spec: `from_indices` resolves the target image by
image/chain index (external collaborator lookup) and throws on failure.
Its source is not in the repository sample; the model resolves a
non-negative in-range image index within the single chain 0. -/
def from_indices (s : State) (idx_image idx_chain : Int) :
    Except SpiritError (ℕ × Image) :=
  if idx_chain = 0 ∧ 0 ≤ idx_image then
    match s.images[idx_image.toNat]? with
    | some img => Except.ok (idx_image.toNat, img)
    | none => Except.error SpiritError.resolutionFailure
  else Except.error SpiritError.resolutionFailure

/-- Severity of a log message. -/
inductive LogLevel
  | info
  | warning
  | error
deriving DecidableEq

/-- One message sent to the logging collaborator. -/
structure LogEntry where
  level : LogLevel
  message : String
  idx_image : Int
  idx_chain : Int
deriving DecidableEq

/-- Observable events of one API call, in program order: taking and
releasing the image lock, reads and writes of Hamiltonian fields, and log
messages. -/
inductive Event
  | lock
  | unlock
  | readHam (field : String)
  | writeHam (field : String)
  | log (entry : LogEntry)
deriving DecidableEq

/-- An informational log event. -/
def infoLog (msg : String) (idx_image idx_chain : Int) : Event :=
  Event.log ⟨LogLevel.info, msg, idx_image, idx_chain⟩

/-- A warning-level log event. -/
def warnLog (msg : String) (idx_image idx_chain : Int) : Event :=
  Event.log ⟨LogLevel.warning, msg, idx_image, idx_chain⟩

/-- Modelled from the spec: `spirit_handle_exception_api` converts a caught
internal failure into a logged error diagnostic keyed by the image/chain
identity.  Its source is not in the repository sample. -/
def spirit_handle_exception_api (idx_image idx_chain : Int) : Event :=
  Event.log ⟨LogLevel.error, "Caught exception in API call", idx_image, idx_chain⟩

/-- Modelled from the spec: Constants::mu_B, the fixed physical conversion
constant applied at the boundary when storing the external field magnitude
(the Bohr magneton in the internal unit of the model).  Constants.hpp is not in
the repository sample; only its positive value matters here. -/
def mu_B : ℝ := 0.057883817555

/-- Modelled from the spec: recompute the cached list of active energy
contributions (the tags of the terms that are currently non-trivial).  The
body of Hamiltonian_Heisenberg::Update_Energy_Contributions is not in the
repository sample; it only rewrites the cache field. -/
def Update_Energy_Contributions (h : Heisenberg) : Heisenberg :=
  { h with energy_contributions :=
      (if h.external_field_magnitude ≠ 0 then ["Zeeman"] else []) ++
      (if h.anisotropy_indices ≠ [] then ["Anisotropy"] else []) ++
      (if h.exchange_pairs ≠ [] then ["Exchange"] else []) ++
      (if h.dmi_pairs ≠ [] then ["DMI"] else []) ++
      (if h.ddi_pairs ≠ [] then ["DDI"] else []) }

/-- Modelled from the spec: the deterministic geometry-derived neighbour
pairs of the first shells (Engine::Neighbours, not in the repository
sample).  Deterministic in the geometry and the shell count, as the spec
requires; the concrete enumeration is a stand-in. -/
def shellPairs (geo : Geometry) (n_shells : ℕ) : List Pair :=
  (List.range n_shells).flatMap fun sh =>
    (List.range geo.n_cell_atoms).map fun a => ⟨a, a, (sh : ℤ) + 1, 0, 0⟩

/-- Modelled from the spec: per-pair magnitudes for the shell pairs, one
copy of each shell magnitude per cell atom. -/
def shellMagnitudes (geo : Geometry) (mags : List ℝ) : List ℝ :=
  mags.flatMap fun m => List.replicate geo.n_cell_atoms m

/-- Modelled from the spec: Hamiltonian_Heisenberg::Update_Interactions
converts the shell-based inputs into freshly regenerated derived pair
lists (re-derived from the geometry, with an explicit pair override taking
precedence) and recomputes the cached contribution list.  It rewrites only
derived data, never the input fields. -/
def Update_Interactions (geo : Geometry) (h : Heisenberg) : Heisenberg :=
  Update_Energy_Contributions
    { h with
      exchange_pairs :=
        if h.exchange_pairs_in ≠ [] then h.exchange_pairs_in
        else shellPairs geo h.exchange_shell_magnitudes.length
      exchange_magnitudes :=
        if h.exchange_pairs_in ≠ [] then h.exchange_magnitudes_in
        else shellMagnitudes geo h.exchange_shell_magnitudes
      dmi_pairs :=
        if h.dmi_pairs_in ≠ [] then h.dmi_pairs_in
        else shellPairs geo h.dmi_shell_magnitudes.length
      dmi_magnitudes :=
        if h.dmi_pairs_in ≠ [] then h.dmi_magnitudes_in
        else shellMagnitudes geo h.dmi_shell_magnitudes
      dmi_normals :=
        if h.dmi_pairs_in ≠ [] then h.dmi_normals_in
        else (shellPairs geo h.dmi_shell_magnitudes.length).map fun _ => ⟨0, 0, 1⟩ }

/-- Modelled from the spec: Engine::Neighbours::Get_Pairs_in_Radius
enumerates every unordered site pair whose Euclidean separation is at most
the radius; a radius ≤ 0 yields an empty list; deterministic and
order-stable for fixed inputs.  Periodic images are beyond the modelled
geometry. -/
def Get_Pairs_in_Radius (geo : Geometry) (radius : ℝ) : List Pair :=
  if radius ≤ 0 then []
  else
    (List.range geo.positions.length).flatMap fun i =>
      (List.range geo.positions.length).filterMap fun j =>
        if i < j ∧
            (Vector3.sub (geo.positions.getD j Vector3.zero)
              (geo.positions.getD i Vector3.zero)).normSq ≤ radius * radius
        then some ⟨i, j, 0, 0, 0⟩ else none

/-- Modelled from the spec: Engine::Neighbours::DDI_from_Pair computes the
dipolar coupling magnitude (inverse-cube law) and the unit vector along
the inter-site displacement of a pair. -/
def DDI_from_Pair (geo : Geometry) (p : Pair) : ℝ × Vector3 :=
  let d := Vector3.sub (geo.positions.getD p.j Vector3.zero)
    (geo.positions.getD p.i Vector3.zero)
  (1 / d.norm ^ 3, d.normalize)

/-- Embeds Hamiltonian_Set_Boundary_Conditions: resolve, lock, write the three
boundary flags, unlock, then log the new value. -/
def Hamiltonian_Set_Boundary_Conditions (s : State)
    (periodical : Bool × Bool × Bool) (idx_image idx_chain : Int) :
    State × List Event :=
  match from_indices s idx_image idx_chain with
  | Except.error _ => (s, [spirit_handle_exception_api idx_image idx_chain])
  | Except.ok (n, image) =>
    let image2 :=
      { image with hamiltonian :=
          { image.hamiltonian with boundary_conditions := periodical } }
    (s.setImage n image2,
      [Event.lock, Event.writeHam "boundary_conditions", Event.unlock,
        infoLog "Set boundary conditions" idx_image idx_chain])

/-- Embeds Hamiltonian_Set_mu_s: on a Heisenberg image overwrite every entry of
mu_s; on any other variant, warn and change nothing. -/
def Hamiltonian_Set_mu_s (s : State) (mu_s : ℝ) (idx_image idx_chain : Int) :
    State × List Event :=
  match from_indices s idx_image idx_chain with
  | Except.error _ => (s, [spirit_handle_exception_api idx_image idx_chain])
  | Except.ok (n, image) =>
    match image.hamiltonian.variant with
    | HamVariant.heisenberg h =>
      let h2 := { h with mu_s := h.mu_s.map fun _ => mu_s }
      (s.setImage n
          { image with hamiltonian :=
              { image.hamiltonian with variant := HamVariant.heisenberg h2 } },
        [Event.lock, Event.readHam "Name", Event.writeHam "mu_s",
          infoLog "Set mu_s" idx_image idx_chain, Event.unlock])
    | HamVariant.gaussian _ =>
      (s, [Event.lock, Event.readHam "Name",
        warnLog ("mu_s cannot be set on " ++ image.hamiltonian.name)
          idx_image idx_chain,
        Event.unlock])

/-- Embeds Hamiltonian_Set_Field: on a Heisenberg image store the renormalized
direction and the magnitude converted by mu_B, then recompute the
contribution cache; on any other variant, warn and change nothing. -/
def Hamiltonian_Set_Field (s : State) (magnitude : ℝ) (normal : Vector3)
    (idx_image idx_chain : Int) : State × List Event :=
  match from_indices s idx_image idx_chain with
  | Except.error _ => (s, [spirit_handle_exception_api idx_image idx_chain])
  | Except.ok (n, image) =>
    match image.hamiltonian.variant with
    | HamVariant.heisenberg h =>
      let new_normal := normal.normalize
      let h1 := { h with
        external_field_magnitude := magnitude * mu_B
        external_field_normal := new_normal }
      let h2 := Update_Energy_Contributions h1
      (s.setImage n
          { image with hamiltonian :=
              { image.hamiltonian with variant := HamVariant.heisenberg h2 } },
        [Event.lock, Event.readHam "Name",
          Event.writeHam "external_field_magnitude",
          Event.writeHam "external_field_normal",
          Event.writeHam "energy_contributions",
          infoLog "Set external field" idx_image idx_chain, Event.unlock])
    | HamVariant.gaussian _ =>
      (s, [Event.lock, Event.readHam "Name",
        warnLog ("External field cannot be set on " ++ image.hamiltonian.name)
          idx_image idx_chain,
        Event.unlock])

/-- Embeds Hamiltonian_Set_Anisotropy: on a Heisenberg image install one index,
magnitude and renormalized direction per cell atom (normals replicated per
spin), then recompute the contribution cache; otherwise warn and change
nothing. -/
def Hamiltonian_Set_Anisotropy (s : State) (magnitude : ℝ) (normal : Vector3)
    (idx_image idx_chain : Int) : State × List Event :=
  match from_indices s idx_image idx_chain with
  | Except.error _ => (s, [spirit_handle_exception_api idx_image idx_chain])
  | Except.ok (n, image) =>
    match image.hamiltonian.variant with
    | HamVariant.heisenberg h =>
      let n_cell_atoms := image.geometry.n_cell_atoms
      let new_indices : List ℤ := (List.range n_cell_atoms).map fun k => (k : ℤ)
      let new_magnitudes : List ℝ := List.replicate n_cell_atoms magnitude
      let new_normal := normal.normalize
      let new_normals : List Vector3 := List.replicate image.nos new_normal
      let h1 := { h with
        anisotropy_indices := new_indices
        anisotropy_magnitudes := new_magnitudes
        anisotropy_normals := new_normals }
      let h2 := Update_Energy_Contributions h1
      (s.setImage n
          { image with hamiltonian :=
              { image.hamiltonian with variant := HamVariant.heisenberg h2 } },
        [Event.lock, Event.readHam "Name",
          Event.writeHam "anisotropy_indices",
          Event.writeHam "anisotropy_magnitudes",
          Event.writeHam "anisotropy_normals",
          Event.writeHam "energy_contributions",
          infoLog "Set anisotropy" idx_image idx_chain, Event.unlock])
    | HamVariant.gaussian _ =>
      (s, [Event.lock, Event.readHam "Name",
        warnLog ("Anisotropy cannot be set on " ++ image.hamiltonian.name)
          idx_image idx_chain,
        Event.unlock])

/-- Embeds Hamiltonian_Set_Exchange: on a Heisenberg image install the shell
magnitudes, clear the explicit pair override and regenerate the derived
interactions; otherwise warn and change nothing. -/
def Hamiltonian_Set_Exchange (s : State) (n_shells : ℕ) (jij : List ℝ)
    (idx_image idx_chain : Int) : State × List Event :=
  match from_indices s idx_image idx_chain with
  | Except.error _ => (s, [spirit_handle_exception_api idx_image idx_chain])
  | Except.ok (n, image) =>
    match image.hamiltonian.variant with
    | HamVariant.heisenberg h =>
      let h1 := { h with
        exchange_shell_magnitudes := jij.take n_shells
        exchange_pairs_in := []
        exchange_magnitudes_in := [] }
      let h2 := Update_Interactions image.geometry h1
      (s.setImage n
          { image with hamiltonian :=
              { image.hamiltonian with variant := HamVariant.heisenberg h2 } },
        [Event.lock, Event.readHam "Name",
          Event.writeHam "exchange_shell_magnitudes",
          Event.writeHam "exchange_pairs_in",
          Event.writeHam "exchange_magnitudes_in",
          Event.writeHam "derived_interactions",
          infoLog "Set exchange" idx_image idx_chain, Event.unlock])
    | HamVariant.gaussian _ =>
      (s, [Event.lock, Event.readHam "Name",
        warnLog ("Exchange cannot be set on " ++ image.hamiltonian.name)
          idx_image idx_chain,
        Event.unlock])

/-- Embeds Hamiltonian_Set_DMI: on a Heisenberg image install the shell
magnitudes and the chirality, clear the explicit pair override and
regenerate the derived interactions; otherwise warn and change nothing. -/
def Hamiltonian_Set_DMI (s : State) (n_shells : ℕ) (dij : List ℝ)
    (chirality : ℤ) (idx_image idx_chain : Int) : State × List Event :=
  match from_indices s idx_image idx_chain with
  | Except.error _ => (s, [spirit_handle_exception_api idx_image idx_chain])
  | Except.ok (n, image) =>
    match image.hamiltonian.variant with
    | HamVariant.heisenberg h =>
      let h1 := { h with
        dmi_shell_magnitudes := dij.take n_shells
        dmi_shell_chirality := chirality
        dmi_pairs_in := []
        dmi_magnitudes_in := []
        dmi_normals_in := [] }
      let h2 := Update_Interactions image.geometry h1
      (s.setImage n
          { image with hamiltonian :=
              { image.hamiltonian with variant := HamVariant.heisenberg h2 } },
        [Event.lock, Event.readHam "Name",
          Event.writeHam "dmi_shell_magnitudes",
          Event.writeHam "dmi_shell_chirality",
          Event.writeHam "dmi_pairs_in",
          Event.writeHam "dmi_magnitudes_in",
          Event.writeHam "dmi_normals_in",
          Event.writeHam "derived_interactions",
          infoLog "Set dmi" idx_image idx_chain, Event.unlock])
    | HamVariant.gaussian _ =>
      (s, [Event.lock, Event.readHam "Name",
        warnLog ("DMI cannot be set on " ++ image.hamiltonian.name)
          idx_image idx_chain,
        Event.unlock])

/-- Embeds Hamiltonian_Set_DDI: on a Heisenberg image regenerate the dipolar
pairs within the radius together with their coupling magnitudes and
normals, then recompute the contribution cache; otherwise warn and change
nothing. -/
def Hamiltonian_Set_DDI (s : State) (radius : ℝ) (idx_image idx_chain : Int) :
    State × List Event :=
  match from_indices s idx_image idx_chain with
  | Except.error _ => (s, [spirit_handle_exception_api idx_image idx_chain])
  | Except.ok (n, image) =>
    match image.hamiltonian.variant with
    | HamVariant.heisenberg h =>
      let pairs := Get_Pairs_in_Radius image.geometry radius
      let magnitudes := pairs.map fun p => (DDI_from_Pair image.geometry p).1
      let normals := pairs.map fun p => (DDI_from_Pair image.geometry p).2
      let h1 := { h with
        ddi_pairs := pairs
        ddi_magnitudes := magnitudes
        ddi_normals := normals }
      let h2 := Update_Energy_Contributions h1
      (s.setImage n
          { image with hamiltonian :=
              { image.hamiltonian with variant := HamVariant.heisenberg h2 } },
        [Event.lock, Event.readHam "Name",
          Event.writeHam "ddi_pairs",
          Event.writeHam "ddi_magnitudes",
          Event.writeHam "ddi_normals",
          Event.writeHam "energy_contributions",
          infoLog "Set ddi radius" idx_image idx_chain, Event.unlock])
    | HamVariant.gaussian _ =>
      (s, [Event.lock, Event.readHam "Name",
        warnLog ("DDI cannot be set on " ++ image.hamiltonian.name)
          idx_image idx_chain,
        Event.unlock])

/-- Embeds Hamiltonian_Get_Name: the variant name, or null (none) when the
image does not resolve. -/
def Hamiltonian_Get_Name (s : State) (idx_image idx_chain : Int) :
    Option String × List Event :=
  match from_indices s idx_image idx_chain with
  | Except.error _ => (none, [spirit_handle_exception_api idx_image idx_chain])
  | Except.ok (_, image) =>
    (some image.hamiltonian.name, [Event.readHam "Name"])

/-- Embeds Hamiltonian_Get_Boundary_Conditions: the three boundary flags. -/
def Hamiltonian_Get_Boundary_Conditions (s : State) (idx_image idx_chain : Int) :
    Option (Bool × Bool × Bool) × List Event :=
  match from_indices s idx_image idx_chain with
  | Except.error _ => (none, [spirit_handle_exception_api idx_image idx_chain])
  | Except.ok (_, image) =>
    (some image.hamiltonian.boundary_conditions,
      [Event.readHam "boundary_conditions"])

/-- Embeds Hamiltonian_Get_mu_s: the first n_cell_atoms entries of mu_s on a
Heisenberg image; no output is written otherwise. -/
def Hamiltonian_Get_mu_s (s : State) (idx_image idx_chain : Int) :
    Option (List ℝ) × List Event :=
  match from_indices s idx_image idx_chain with
  | Except.error _ => (none, [spirit_handle_exception_api idx_image idx_chain])
  | Except.ok (_, image) =>
    match image.hamiltonian.variant with
    | HamVariant.heisenberg h =>
      (some ((List.range image.geometry.n_cell_atoms).map fun i => h.mu_s.getD i 0),
        [Event.readHam "Name", Event.readHam "mu_s"])
    | HamVariant.gaussian _ => (none, [Event.readHam "Name"])

/-- Embeds Hamiltonian_Get_Field: on a Heisenberg image, the stored magnitude
converted back by mu_B together with the stored normal when the stored
magnitude is positive, and the zero magnitude with the sentinel direction
(0, 0, 1) otherwise; no output is written on other variants. -/
def Hamiltonian_Get_Field (s : State) (idx_image idx_chain : Int) :
    Option (ℝ × Vector3) × List Event :=
  match from_indices s idx_image idx_chain with
  | Except.error _ => (none, [spirit_handle_exception_api idx_image idx_chain])
  | Except.ok (_, image) =>
    match image.hamiltonian.variant with
    | HamVariant.heisenberg h =>
      if h.external_field_magnitude > 0 then
        (some (h.external_field_magnitude / mu_B, h.external_field_normal),
          [Event.readHam "Name", Event.readHam "external_field_magnitude",
            Event.readHam "external_field_normal"])
      else
        (some (0, ⟨0, 0, 1⟩),
          [Event.readHam "Name", Event.readHam "external_field_magnitude"])
    | HamVariant.gaussian _ => (none, [Event.readHam "Name"])

/-- Embeds Hamiltonian_Get_Anisotropy: on a Heisenberg image, the first stored
anisotropy magnitude and normal when present, the zero magnitude with the
sentinel direction (0, 0, 1) otherwise; no output on other variants. -/
def Hamiltonian_Get_Anisotropy (s : State) (idx_image idx_chain : Int) :
    Option (ℝ × Vector3) × List Event :=
  match from_indices s idx_image idx_chain with
  | Except.error _ => (none, [spirit_handle_exception_api idx_image idx_chain])
  | Except.ok (_, image) =>
    match image.hamiltonian.variant with
    | HamVariant.heisenberg h =>
      if h.anisotropy_indices.length > 0 then
        (some (h.anisotropy_magnitudes.getD 0 0,
            h.anisotropy_normals.getD 0 Vector3.zero),
          [Event.readHam "Name", Event.readHam "anisotropy_magnitudes",
            Event.readHam "anisotropy_normals"])
      else
        (some (0, ⟨0, 0, 1⟩),
          [Event.readHam "Name", Event.readHam "anisotropy_indices"])
    | HamVariant.gaussian _ => (none, [Event.readHam "Name"])

/-- Embeds Hamiltonian_Get_Exchange_Shells: shell count and shell magnitudes of a
Heisenberg image; no output on other variants. -/
def Hamiltonian_Get_Exchange_Shells (s : State) (idx_image idx_chain : Int) :
    Option (ℕ × List ℝ) × List Event :=
  match from_indices s idx_image idx_chain with
  | Except.error _ => (none, [spirit_handle_exception_api idx_image idx_chain])
  | Except.ok (_, image) =>
    match image.hamiltonian.variant with
    | HamVariant.heisenberg h =>
      (some (h.exchange_shell_magnitudes.length, h.exchange_shell_magnitudes),
        [Event.readHam "Name", Event.readHam "exchange_shell_magnitudes"])
    | HamVariant.gaussian _ => (none, [Event.readHam "Name"])

/-- Embeds Hamiltonian_Get_Exchange_N_Pairs: an unimplemented stub that warns and
returns 0 for every variant. -/
def Hamiltonian_Get_Exchange_N_Pairs (s : State) (idx_image idx_chain : Int) :
    Int × List Event :=
  match from_indices s idx_image idx_chain with
  | Except.error _ => (0, [spirit_handle_exception_api idx_image idx_chain])
  | Except.ok (_, image) =>
    (0, [Event.readHam "Name",
      warnLog (image.hamiltonian.name ++
        " Hamiltonian: fetching exchange pairs is not yet implemented...")
        idx_image idx_chain])

/-- The data Hamiltonian_Get_Exchange_Pairs would write to its output
arrays, were it implemented. -/
structure ExchangePairsOut where
  idx : List (ℕ × ℕ)
  translations : List (ℤ × ℤ × ℤ)
  magnitudes : List ℝ

/-- Embeds Hamiltonian_Get_Exchange_Pairs: an unimplemented stub that warns and
writes nothing to its output arrays. -/
def Hamiltonian_Get_Exchange_Pairs (s : State) (idx_image idx_chain : Int) :
    Option ExchangePairsOut × List Event :=
  match from_indices s idx_image idx_chain with
  | Except.error _ => (none, [spirit_handle_exception_api idx_image idx_chain])
  | Except.ok (_, image) =>
    (none, [Event.readHam "Name",
      warnLog (image.hamiltonian.name ++
        " Hamiltonian: fetching exchange pairs is not yet implemented...")
        idx_image idx_chain])

/-- Embeds Hamiltonian_Get_DMI_Shells: shell count, shell magnitudes and
chirality of a Heisenberg image; no output on other variants. -/
def Hamiltonian_Get_DMI_Shells (s : State) (idx_image idx_chain : Int) :
    Option (ℕ × List ℝ × ℤ) × List Event :=
  match from_indices s idx_image idx_chain with
  | Except.error _ => (none, [spirit_handle_exception_api idx_image idx_chain])
  | Except.ok (_, image) =>
    match image.hamiltonian.variant with
    | HamVariant.heisenberg h =>
      (some (h.dmi_shell_magnitudes.length, h.dmi_shell_magnitudes,
          h.dmi_shell_chirality),
        [Event.readHam "Name", Event.readHam "dmi_shell_magnitudes",
          Event.readHam "dmi_shell_chirality"])
    | HamVariant.gaussian _ => (none, [Event.readHam "Name"])

/-- Embeds Hamiltonian_Get_DMI_N_Pairs: an unimplemented stub that warns and
returns 0 for every variant. -/
def Hamiltonian_Get_DMI_N_Pairs (s : State) (idx_image idx_chain : Int) :
    Int × List Event :=
  match from_indices s idx_image idx_chain with
  | Except.error _ => (0, [spirit_handle_exception_api idx_image idx_chain])
  | Except.ok (_, image) =>
    (0, [Event.readHam "Name",
      warnLog (image.hamiltonian.name ++
        " Hamiltonian: fetching DMI pairs is not yet implemented...")
        idx_image idx_chain])

/-- Embeds Hamiltonian_Get_DDI: the dipolar cutoff radius of a Heisenberg image;
no output on other variants. -/
def Hamiltonian_Get_DDI (s : State) (idx_image idx_chain : Int) :
    Option ℝ × List Event :=
  match from_indices s idx_image idx_chain with
  | Except.error _ => (none, [spirit_handle_exception_api idx_image idx_chain])
  | Except.ok (_, image) =>
    match image.hamiltonian.variant with
    | HamVariant.heisenberg h =>
      (some h.ddi_cutoff_radius,
        [Event.readHam "Name", Event.readHam "ddi_cutoff_radius"])
    | HamVariant.gaussian _ => (none, [Event.readHam "Name"])

/-- An event is a read or write of a Hamiltonian field. -/
def Event.isHamAccess : Event → Bool
  | Event.readHam _ => true
  | Event.writeHam _ => true
  | _ => false

/-- An event is a lock acquisition or release. -/
def Event.isLockEvent : Event → Bool
  | Event.lock => true
  | Event.unlock => true
  | _ => false

/-- A trace acquires the lock once, performs every Hamiltonian field
access while holding it, and releases it before the call returns. -/
def LockDiscipline (tr : List Event) : Prop :=
  ∃ pre mid post,
    tr = pre ++ Event.lock :: mid ++ Event.unlock :: post ∧
    (∀ e ∈ pre, e.isHamAccess = false ∧ e.isLockEvent = false) ∧
    (∀ e ∈ mid, e.isLockEvent = false) ∧
    (∀ e ∈ post, e.isHamAccess = false ∧ e.isLockEvent = false)

/-- A trace never touches the lock. -/
def LockFree (tr : List Event) : Prop := ∀ e ∈ tr, e.isLockEvent = false

/-- A trace contains a warning-level log message. -/
def HasWarning (tr : List Event) : Prop :=
  ∃ m i c, Event.log ⟨LogLevel.warning, m, i, c⟩ ∈ tr

/-- A trace contains an error-level log message tagged with the given
image/chain identity. -/
def HasErrorTagged (tr : List Event) (idx_image idx_chain : Int) : Prop :=
  ∃ m, Event.log ⟨LogLevel.error, m, idx_image, idx_chain⟩ ∈ tr

/-- A sample Heisenberg parameter set used by the concrete witnesses. -/
def heisSample : Heisenberg :=
  { mu_s := [1, 1]
    external_field_magnitude := 0
    external_field_normal := ⟨0, 0, 1⟩
    anisotropy_indices := []
    anisotropy_magnitudes := []
    anisotropy_normals := []
    exchange_shell_magnitudes := []
    exchange_pairs_in := [⟨0, 1, 0, 0, 0⟩]
    exchange_magnitudes_in := [5]
    exchange_pairs := []
    exchange_magnitudes := []
    dmi_shell_magnitudes := []
    dmi_shell_chirality := 1
    dmi_pairs_in := [⟨0, 1, 0, 0, 0⟩]
    dmi_magnitudes_in := [3]
    dmi_normals_in := [⟨0, 0, 1⟩]
    dmi_pairs := []
    dmi_magnitudes := []
    dmi_normals := []
    ddi_cutoff_radius := 0
    ddi_pairs := []
    ddi_magnitudes := []
    ddi_normals := []
    energy_contributions := [] }

/-- A sample geometry with two sites one unit apart. -/
def geoSample : Geometry :=
  { n_cell_atoms := 1, positions := [⟨0, 0, 0⟩, ⟨1, 0, 0⟩] }

/-- A sample Heisenberg image. -/
def heisImage : Image :=
  { hamiltonian :=
      { boundary_conditions := (false, false, false)
        variant := HamVariant.heisenberg heisSample }
    geometry := geoSample
    nos := 2 }

/-- A sample state holding the Heisenberg image. -/
def heisState : State := ⟨[heisImage]⟩

/-- A sample Gaussian parameter set. -/
def gaussSample : Gaussian :=
  { n_gaussians := 1, amplitude := [2], width := [1], center := [⟨0, 0, 1⟩] }

/-- A sample Gaussian image. -/
def gaussImage : Image :=
  { hamiltonian :=
      { boundary_conditions := (false, false, false)
        variant := HamVariant.gaussian gaussSample }
    geometry := geoSample
    nos := 2 }

/-- A sample state holding the Gaussian image. -/
def gaussState : State := ⟨[gaussImage]⟩

/-- A state with no images: every resolution fails in it. -/
def emptyState : State := ⟨[]⟩

end

theorem from_indices_ok {s : State} {ii ic : Int} {n : ℕ} {img : Image}
    (h : from_indices s ii ic = Except.ok (n, img)) :
    ic = 0 ∧ 0 ≤ ii ∧ ii.toNat = n ∧ s.images[n]? = some img := by
  unfold from_indices at h
  split at h
  case isTrue hc =>
    cases hg : s.images[ii.toNat]? with
    | none => rw [hg] at h; exact absurd h (by simp)
    | some img2 =>
      rw [hg] at h
      have h2 : (ii.toNat, img2) = (n, img) := Except.ok.inj h
      have hn : ii.toNat = n := congrArg Prod.fst h2
      refine ⟨hc.1, hc.2, hn, ?_⟩
      rw [← hn, hg]
      exact congrArg some (congrArg Prod.snd h2)
  case isFalse => exact absurd h (by simp)

theorem from_indices_lt {s : State} {ii ic : Int} {n : ℕ} {img : Image}
    (h : from_indices s ii ic = Except.ok (n, img)) : n < s.images.length := by
  obtain ⟨-, -, -, hget⟩ := from_indices_ok h
  exact (List.getElem?_eq_some.mp hget).1

theorem from_indices_setImage {s : State} {ii ic : Int} {n : ℕ} {img : Image}
    (h : from_indices s ii ic = Except.ok (n, img)) (img2 : Image) :
    from_indices (s.setImage n img2) ii ic = Except.ok (n, img2) := by
  obtain ⟨hc, hi, hn, hget⟩ := from_indices_ok h
  have hlt : n < s.images.length := (List.getElem?_eq_some.mp hget).1
  unfold from_indices State.setImage
  rw [if_pos ⟨hc, hi⟩]
  subst hn
  simp only []
  rw [List.getElem?_set_eq_of_lt img2 hlt]

theorem heisAt_setImage (s : State) (n : ℕ) (img2 : Image)
    (hlt : n < s.images.length) :
    (s.setImage n img2).heisAt n = img2.hamiltonian.heis := by
  unfold State.heisAt State.setImage
  rw [List.getElem?_set_eq_of_lt img2 hlt]

theorem Set_Boundary_Conditions_eq {s : State} {ii ic : Int} {n : ℕ}
    {img : Image} (hres : from_indices s ii ic = Except.ok (n, img))
    (p : Bool × Bool × Bool) :
    Hamiltonian_Set_Boundary_Conditions s p ii ic =
      (s.setImage n
        { img with hamiltonian :=
            { img.hamiltonian with boundary_conditions := p } },
        [Event.lock, Event.writeHam "boundary_conditions", Event.unlock,
          infoLog "Set boundary conditions" ii ic]) := by
  simp only [Hamiltonian_Set_Boundary_Conditions, hres]

theorem Set_mu_s_eq_heis {s : State} {ii ic : Int} {n : ℕ} {img : Image}
    {h : Heisenberg} (hres : from_indices s ii ic = Except.ok (n, img))
    (hvar : img.hamiltonian.variant = HamVariant.heisenberg h) (mu_s : ℝ) :
    Hamiltonian_Set_mu_s s mu_s ii ic =
      (s.setImage n
        { img with hamiltonian :=
            { img.hamiltonian with
              variant :=
                HamVariant.heisenberg { h with mu_s := h.mu_s.map fun _ => mu_s } } },
        [Event.lock, Event.readHam "Name", Event.writeHam "mu_s",
          infoLog "Set mu_s" ii ic, Event.unlock]) := by
  simp only [Hamiltonian_Set_mu_s, hres, hvar]

theorem Set_mu_s_eq_gauss {s : State} {ii ic : Int} {n : ℕ} {img : Image}
    {g : Gaussian} (hres : from_indices s ii ic = Except.ok (n, img))
    (hvar : img.hamiltonian.variant = HamVariant.gaussian g) (mu_s : ℝ) :
    Hamiltonian_Set_mu_s s mu_s ii ic =
      (s, [Event.lock, Event.readHam "Name",
        warnLog ("mu_s cannot be set on " ++ img.hamiltonian.name) ii ic,
        Event.unlock]) := by
  simp only [Hamiltonian_Set_mu_s, hres, hvar]

theorem Set_Field_eq_heis {s : State} {ii ic : Int} {n : ℕ} {img : Image}
    {h : Heisenberg} (hres : from_indices s ii ic = Except.ok (n, img))
    (hvar : img.hamiltonian.variant = HamVariant.heisenberg h)
    (magnitude : ℝ) (normal : Vector3) :
    Hamiltonian_Set_Field s magnitude normal ii ic =
      (s.setImage n
        { img with hamiltonian :=
            { img.hamiltonian with
              variant :=
                HamVariant.heisenberg
                  (Update_Energy_Contributions
                    { h with
                      external_field_magnitude := magnitude * mu_B
                      external_field_normal := normal.normalize }) } },
        [Event.lock, Event.readHam "Name",
          Event.writeHam "external_field_magnitude",
          Event.writeHam "external_field_normal",
          Event.writeHam "energy_contributions",
          infoLog "Set external field" ii ic, Event.unlock]) := by
  simp only [Hamiltonian_Set_Field, hres, hvar]

theorem Set_Field_eq_gauss {s : State} {ii ic : Int} {n : ℕ} {img : Image}
    {g : Gaussian} (hres : from_indices s ii ic = Except.ok (n, img))
    (hvar : img.hamiltonian.variant = HamVariant.gaussian g)
    (magnitude : ℝ) (normal : Vector3) :
    Hamiltonian_Set_Field s magnitude normal ii ic =
      (s, [Event.lock, Event.readHam "Name",
        warnLog ("External field cannot be set on " ++ img.hamiltonian.name) ii ic,
        Event.unlock]) := by
  simp only [Hamiltonian_Set_Field, hres, hvar]

theorem Set_Anisotropy_eq_heis {s : State} {ii ic : Int} {n : ℕ} {img : Image}
    {h : Heisenberg} (hres : from_indices s ii ic = Except.ok (n, img))
    (hvar : img.hamiltonian.variant = HamVariant.heisenberg h)
    (magnitude : ℝ) (normal : Vector3) :
    Hamiltonian_Set_Anisotropy s magnitude normal ii ic =
      (s.setImage n
        { img with hamiltonian :=
            { img.hamiltonian with
              variant :=
                HamVariant.heisenberg
                  (Update_Energy_Contributions
                    { h with
                      anisotropy_indices :=
                        (List.range img.geometry.n_cell_atoms).map fun k => (k : ℤ)
                      anisotropy_magnitudes :=
                        List.replicate img.geometry.n_cell_atoms magnitude
                      anisotropy_normals :=
                        List.replicate img.nos normal.normalize }) } },
        [Event.lock, Event.readHam "Name",
          Event.writeHam "anisotropy_indices",
          Event.writeHam "anisotropy_magnitudes",
          Event.writeHam "anisotropy_normals",
          Event.writeHam "energy_contributions",
          infoLog "Set anisotropy" ii ic, Event.unlock]) := by
  simp only [Hamiltonian_Set_Anisotropy, hres, hvar]

theorem Set_Anisotropy_eq_gauss {s : State} {ii ic : Int} {n : ℕ} {img : Image}
    {g : Gaussian} (hres : from_indices s ii ic = Except.ok (n, img))
    (hvar : img.hamiltonian.variant = HamVariant.gaussian g)
    (magnitude : ℝ) (normal : Vector3) :
    Hamiltonian_Set_Anisotropy s magnitude normal ii ic =
      (s, [Event.lock, Event.readHam "Name",
        warnLog ("Anisotropy cannot be set on " ++ img.hamiltonian.name) ii ic,
        Event.unlock]) := by
  simp only [Hamiltonian_Set_Anisotropy, hres, hvar]

theorem Set_Exchange_eq_heis {s : State} {ii ic : Int} {n : ℕ} {img : Image}
    {h : Heisenberg} (hres : from_indices s ii ic = Except.ok (n, img))
    (hvar : img.hamiltonian.variant = HamVariant.heisenberg h)
    (k : ℕ) (jij : List ℝ) :
    Hamiltonian_Set_Exchange s k jij ii ic =
      (s.setImage n
        { img with hamiltonian :=
            { img.hamiltonian with
              variant :=
                HamVariant.heisenberg
                  (Update_Interactions img.geometry
                    { h with
                      exchange_shell_magnitudes := jij.take k
                      exchange_pairs_in := []
                      exchange_magnitudes_in := [] }) } },
        [Event.lock, Event.readHam "Name",
          Event.writeHam "exchange_shell_magnitudes",
          Event.writeHam "exchange_pairs_in",
          Event.writeHam "exchange_magnitudes_in",
          Event.writeHam "derived_interactions",
          infoLog "Set exchange" ii ic, Event.unlock]) := by
  simp only [Hamiltonian_Set_Exchange, hres, hvar]

theorem Set_Exchange_eq_gauss {s : State} {ii ic : Int} {n : ℕ} {img : Image}
    {g : Gaussian} (hres : from_indices s ii ic = Except.ok (n, img))
    (hvar : img.hamiltonian.variant = HamVariant.gaussian g)
    (k : ℕ) (jij : List ℝ) :
    Hamiltonian_Set_Exchange s k jij ii ic =
      (s, [Event.lock, Event.readHam "Name",
        warnLog ("Exchange cannot be set on " ++ img.hamiltonian.name) ii ic,
        Event.unlock]) := by
  simp only [Hamiltonian_Set_Exchange, hres, hvar]

theorem Set_DMI_eq_heis {s : State} {ii ic : Int} {n : ℕ} {img : Image}
    {h : Heisenberg} (hres : from_indices s ii ic = Except.ok (n, img))
    (hvar : img.hamiltonian.variant = HamVariant.heisenberg h)
    (k : ℕ) (dij : List ℝ) (chirality : ℤ) :
    Hamiltonian_Set_DMI s k dij chirality ii ic =
      (s.setImage n
        { img with hamiltonian :=
            { img.hamiltonian with
              variant :=
                HamVariant.heisenberg
                  (Update_Interactions img.geometry
                    { h with
                      dmi_shell_magnitudes := dij.take k
                      dmi_shell_chirality := chirality
                      dmi_pairs_in := []
                      dmi_magnitudes_in := []
                      dmi_normals_in := [] }) } },
        [Event.lock, Event.readHam "Name",
          Event.writeHam "dmi_shell_magnitudes",
          Event.writeHam "dmi_shell_chirality",
          Event.writeHam "dmi_pairs_in",
          Event.writeHam "dmi_magnitudes_in",
          Event.writeHam "dmi_normals_in",
          Event.writeHam "derived_interactions",
          infoLog "Set dmi" ii ic, Event.unlock]) := by
  simp only [Hamiltonian_Set_DMI, hres, hvar]

theorem Set_DMI_eq_gauss {s : State} {ii ic : Int} {n : ℕ} {img : Image}
    {g : Gaussian} (hres : from_indices s ii ic = Except.ok (n, img))
    (hvar : img.hamiltonian.variant = HamVariant.gaussian g)
    (k : ℕ) (dij : List ℝ) (chirality : ℤ) :
    Hamiltonian_Set_DMI s k dij chirality ii ic =
      (s, [Event.lock, Event.readHam "Name",
        warnLog ("DMI cannot be set on " ++ img.hamiltonian.name) ii ic,
        Event.unlock]) := by
  simp only [Hamiltonian_Set_DMI, hres, hvar]

theorem Set_DDI_eq_heis {s : State} {ii ic : Int} {n : ℕ} {img : Image}
    {h : Heisenberg} (hres : from_indices s ii ic = Except.ok (n, img))
    (hvar : img.hamiltonian.variant = HamVariant.heisenberg h) (radius : ℝ) :
    Hamiltonian_Set_DDI s radius ii ic =
      (s.setImage n
        { img with hamiltonian :=
            { img.hamiltonian with
              variant :=
                HamVariant.heisenberg
                  (Update_Energy_Contributions
                    { h with
                      ddi_pairs := Get_Pairs_in_Radius img.geometry radius
                      ddi_magnitudes :=
                        (Get_Pairs_in_Radius img.geometry radius).map fun p =>
                          (DDI_from_Pair img.geometry p).1
                      ddi_normals :=
                        (Get_Pairs_in_Radius img.geometry radius).map fun p =>
                          (DDI_from_Pair img.geometry p).2 }) } },
        [Event.lock, Event.readHam "Name",
          Event.writeHam "ddi_pairs",
          Event.writeHam "ddi_magnitudes",
          Event.writeHam "ddi_normals",
          Event.writeHam "energy_contributions",
          infoLog "Set ddi radius" ii ic, Event.unlock]) := by
  simp only [Hamiltonian_Set_DDI, hres, hvar]

theorem Set_DDI_eq_gauss {s : State} {ii ic : Int} {n : ℕ} {img : Image}
    {g : Gaussian} (hres : from_indices s ii ic = Except.ok (n, img))
    (hvar : img.hamiltonian.variant = HamVariant.gaussian g) (radius : ℝ) :
    Hamiltonian_Set_DDI s radius ii ic =
      (s, [Event.lock, Event.readHam "Name",
        warnLog ("DDI cannot be set on " ++ img.hamiltonian.name) ii ic,
        Event.unlock]) := by
  simp only [Hamiltonian_Set_DDI, hres, hvar]

theorem lockDiscipline_of_inner (mid : List Event)
    (hmid : ∀ e ∈ mid, e.isLockEvent = false) :
    LockDiscipline (Event.lock :: mid ++ [Event.unlock]) :=
  ⟨[], mid, [], by simp, by simp, hmid, by simp⟩

theorem lockDiscipline_gaussTrace (msg : String) (ii ic : Int) :
    LockDiscipline [Event.lock, Event.readHam "Name", warnLog msg ii ic,
      Event.unlock] :=
  ⟨[], [Event.readHam "Name", warnLog msg ii ic], [], rfl, by simp,
    by simp [Event.isLockEvent, warnLog], by simp⟩

theorem lockDiscipline_Set_Boundary_Conditions {s : State} {ii ic : Int}
    {n : ℕ} {img : Image} (hres : from_indices s ii ic = Except.ok (n, img))
    (p : Bool × Bool × Bool) :
    LockDiscipline (Hamiltonian_Set_Boundary_Conditions s p ii ic).2 := by
  rw [Set_Boundary_Conditions_eq hres]
  exact ⟨[], [Event.writeHam "boundary_conditions"],
    [infoLog "Set boundary conditions" ii ic], rfl, by simp,
    by simp [Event.isLockEvent],
    by simp [Event.isLockEvent, Event.isHamAccess, infoLog]⟩

theorem lockDiscipline_Set_mu_s {s : State} {ii ic : Int} {n : ℕ}
    {img : Image} (hres : from_indices s ii ic = Except.ok (n, img))
    (mu_s : ℝ) : LockDiscipline (Hamiltonian_Set_mu_s s mu_s ii ic).2 := by
  cases hvar : img.hamiltonian.variant with
  | heisenberg h =>
    rw [Set_mu_s_eq_heis hres hvar]
    exact lockDiscipline_of_inner
      [Event.readHam "Name", Event.writeHam "mu_s", infoLog "Set mu_s" ii ic]
      (by simp [Event.isLockEvent, infoLog])
  | gaussian g =>
    rw [Set_mu_s_eq_gauss hres hvar]
    exact lockDiscipline_gaussTrace _ _ _

theorem lockDiscipline_Set_Field {s : State} {ii ic : Int} {n : ℕ}
    {img : Image} (hres : from_indices s ii ic = Except.ok (n, img))
    (magnitude : ℝ) (normal : Vector3) :
    LockDiscipline (Hamiltonian_Set_Field s magnitude normal ii ic).2 := by
  cases hvar : img.hamiltonian.variant with
  | heisenberg h =>
    rw [Set_Field_eq_heis hres hvar]
    exact lockDiscipline_of_inner
      [Event.readHam "Name", Event.writeHam "external_field_magnitude",
        Event.writeHam "external_field_normal",
        Event.writeHam "energy_contributions",
        infoLog "Set external field" ii ic]
      (by simp [Event.isLockEvent, infoLog])
  | gaussian g =>
    rw [Set_Field_eq_gauss hres hvar]
    exact lockDiscipline_gaussTrace _ _ _

theorem lockDiscipline_Set_Anisotropy {s : State} {ii ic : Int} {n : ℕ}
    {img : Image} (hres : from_indices s ii ic = Except.ok (n, img))
    (magnitude : ℝ) (normal : Vector3) :
    LockDiscipline (Hamiltonian_Set_Anisotropy s magnitude normal ii ic).2 := by
  cases hvar : img.hamiltonian.variant with
  | heisenberg h =>
    rw [Set_Anisotropy_eq_heis hres hvar]
    exact lockDiscipline_of_inner
      [Event.readHam "Name", Event.writeHam "anisotropy_indices",
        Event.writeHam "anisotropy_magnitudes",
        Event.writeHam "anisotropy_normals",
        Event.writeHam "energy_contributions",
        infoLog "Set anisotropy" ii ic]
      (by simp [Event.isLockEvent, infoLog])
  | gaussian g =>
    rw [Set_Anisotropy_eq_gauss hres hvar]
    exact lockDiscipline_gaussTrace _ _ _

theorem lockDiscipline_Set_Exchange {s : State} {ii ic : Int} {n : ℕ}
    {img : Image} (hres : from_indices s ii ic = Except.ok (n, img))
    (k : ℕ) (jij : List ℝ) :
    LockDiscipline (Hamiltonian_Set_Exchange s k jij ii ic).2 := by
  cases hvar : img.hamiltonian.variant with
  | heisenberg h =>
    rw [Set_Exchange_eq_heis hres hvar]
    exact lockDiscipline_of_inner
      [Event.readHam "Name", Event.writeHam "exchange_shell_magnitudes",
        Event.writeHam "exchange_pairs_in",
        Event.writeHam "exchange_magnitudes_in",
        Event.writeHam "derived_interactions",
        infoLog "Set exchange" ii ic]
      (by simp [Event.isLockEvent, infoLog])
  | gaussian g =>
    rw [Set_Exchange_eq_gauss hres hvar]
    exact lockDiscipline_gaussTrace _ _ _

theorem lockDiscipline_Set_DMI {s : State} {ii ic : Int} {n : ℕ}
    {img : Image} (hres : from_indices s ii ic = Except.ok (n, img))
    (k : ℕ) (dij : List ℝ) (chirality : ℤ) :
    LockDiscipline (Hamiltonian_Set_DMI s k dij chirality ii ic).2 := by
  cases hvar : img.hamiltonian.variant with
  | heisenberg h =>
    rw [Set_DMI_eq_heis hres hvar]
    exact lockDiscipline_of_inner
      [Event.readHam "Name", Event.writeHam "dmi_shell_magnitudes",
        Event.writeHam "dmi_shell_chirality", Event.writeHam "dmi_pairs_in",
        Event.writeHam "dmi_magnitudes_in", Event.writeHam "dmi_normals_in",
        Event.writeHam "derived_interactions",
        infoLog "Set dmi" ii ic]
      (by simp [Event.isLockEvent, infoLog])
  | gaussian g =>
    rw [Set_DMI_eq_gauss hres hvar]
    exact lockDiscipline_gaussTrace _ _ _

theorem lockDiscipline_Set_DDI {s : State} {ii ic : Int} {n : ℕ}
    {img : Image} (hres : from_indices s ii ic = Except.ok (n, img))
    (radius : ℝ) : LockDiscipline (Hamiltonian_Set_DDI s radius ii ic).2 := by
  cases hvar : img.hamiltonian.variant with
  | heisenberg h =>
    rw [Set_DDI_eq_heis hres hvar]
    exact lockDiscipline_of_inner
      [Event.readHam "Name", Event.writeHam "ddi_pairs",
        Event.writeHam "ddi_magnitudes", Event.writeHam "ddi_normals",
        Event.writeHam "energy_contributions",
        infoLog "Set ddi radius" ii ic]
      (by simp [Event.isLockEvent, infoLog])
  | gaussian g =>
    rw [Set_DDI_eq_gauss hres hvar]
    exact lockDiscipline_gaussTrace _ _ _

theorem lockFree_Get_Name {s : State} {ii ic : Int} {n : ℕ} {img : Image}
    (hres : from_indices s ii ic = Except.ok (n, img)) :
    LockFree (Hamiltonian_Get_Name s ii ic).2 := by
  simp only [Hamiltonian_Get_Name, hres]
  simp [LockFree, Event.isLockEvent]

theorem lockFree_Get_Boundary_Conditions {s : State} {ii ic : Int} {n : ℕ}
    {img : Image} (hres : from_indices s ii ic = Except.ok (n, img)) :
    LockFree (Hamiltonian_Get_Boundary_Conditions s ii ic).2 := by
  simp only [Hamiltonian_Get_Boundary_Conditions, hres]
  simp [LockFree, Event.isLockEvent]

theorem lockFree_Get_mu_s {s : State} {ii ic : Int} {n : ℕ} {img : Image}
    (hres : from_indices s ii ic = Except.ok (n, img)) :
    LockFree (Hamiltonian_Get_mu_s s ii ic).2 := by
  cases hvar : img.hamiltonian.variant <;>
    simp only [Hamiltonian_Get_mu_s, hres, hvar] <;>
    simp [LockFree, Event.isLockEvent]

theorem lockFree_Get_Field {s : State} {ii ic : Int} {n : ℕ} {img : Image}
    (hres : from_indices s ii ic = Except.ok (n, img)) :
    LockFree (Hamiltonian_Get_Field s ii ic).2 := by
  cases hvar : img.hamiltonian.variant
  case heisenberg h =>
    simp only [Hamiltonian_Get_Field, hres, hvar]
    split <;> simp [LockFree, Event.isLockEvent]
  case gaussian g =>
    simp only [Hamiltonian_Get_Field, hres, hvar]
    simp [LockFree, Event.isLockEvent]

theorem lockFree_Get_Anisotropy {s : State} {ii ic : Int} {n : ℕ}
    {img : Image} (hres : from_indices s ii ic = Except.ok (n, img)) :
    LockFree (Hamiltonian_Get_Anisotropy s ii ic).2 := by
  cases hvar : img.hamiltonian.variant
  case heisenberg h =>
    simp only [Hamiltonian_Get_Anisotropy, hres, hvar]
    split <;> simp [LockFree, Event.isLockEvent]
  case gaussian g =>
    simp only [Hamiltonian_Get_Anisotropy, hres, hvar]
    simp [LockFree, Event.isLockEvent]

theorem lockFree_Get_Exchange_Shells {s : State} {ii ic : Int} {n : ℕ}
    {img : Image} (hres : from_indices s ii ic = Except.ok (n, img)) :
    LockFree (Hamiltonian_Get_Exchange_Shells s ii ic).2 := by
  cases hvar : img.hamiltonian.variant <;>
    simp only [Hamiltonian_Get_Exchange_Shells, hres, hvar] <;>
    simp [LockFree, Event.isLockEvent]

theorem lockFree_Get_Exchange_N_Pairs {s : State} {ii ic : Int} {n : ℕ}
    {img : Image} (hres : from_indices s ii ic = Except.ok (n, img)) :
    LockFree (Hamiltonian_Get_Exchange_N_Pairs s ii ic).2 := by
  simp only [Hamiltonian_Get_Exchange_N_Pairs, hres]
  simp [LockFree, Event.isLockEvent, warnLog]

theorem lockFree_Get_Exchange_Pairs {s : State} {ii ic : Int} {n : ℕ}
    {img : Image} (hres : from_indices s ii ic = Except.ok (n, img)) :
    LockFree (Hamiltonian_Get_Exchange_Pairs s ii ic).2 := by
  simp only [Hamiltonian_Get_Exchange_Pairs, hres]
  simp [LockFree, Event.isLockEvent, warnLog]

theorem lockFree_Get_DMI_Shells {s : State} {ii ic : Int} {n : ℕ}
    {img : Image} (hres : from_indices s ii ic = Except.ok (n, img)) :
    LockFree (Hamiltonian_Get_DMI_Shells s ii ic).2 := by
  cases hvar : img.hamiltonian.variant <;>
    simp only [Hamiltonian_Get_DMI_Shells, hres, hvar] <;>
    simp [LockFree, Event.isLockEvent]

theorem lockFree_Get_DMI_N_Pairs {s : State} {ii ic : Int} {n : ℕ}
    {img : Image} (hres : from_indices s ii ic = Except.ok (n, img)) :
    LockFree (Hamiltonian_Get_DMI_N_Pairs s ii ic).2 := by
  simp only [Hamiltonian_Get_DMI_N_Pairs, hres]
  simp [LockFree, Event.isLockEvent, warnLog]

theorem lockFree_Get_DDI {s : State} {ii ic : Int} {n : ℕ} {img : Image}
    (hres : from_indices s ii ic = Except.ok (n, img)) :
    LockFree (Hamiltonian_Get_DDI s ii ic).2 := by
  cases hvar : img.hamiltonian.variant <;>
    simp only [Hamiltonian_Get_DDI, hres, hvar] <;>
    simp [LockFree, Event.isLockEvent]

theorem Vector3.normSq_nonneg (v : Vector3) : 0 ≤ v.normSq := by
  have hx := sq_nonneg v.x
  have hy := sq_nonneg v.y
  have hz := sq_nonneg v.z
  unfold Vector3.normSq
  linarith

theorem Vector3.normSq_pos {v : Vector3} (hv : v ≠ Vector3.zero) :
    0 < v.normSq := by
  rcases lt_or_eq_of_le v.normSq_nonneg with hlt | heq
  · exact hlt
  · exfalso
    apply hv
    have hx := sq_nonneg v.x
    have hy := sq_nonneg v.y
    have hz := sq_nonneg v.z
    have hS : v.x ^ 2 + v.y ^ 2 + v.z ^ 2 = 0 := by
      have := heq.symm
      unfold Vector3.normSq at this
      linarith
    have hx0 : v.x = 0 := by
      have h2 : v.x ^ 2 = 0 := by linarith
      exact pow_eq_zero_iff (by norm_num) |>.mp h2
    have hy0 : v.y = 0 := by
      have h2 : v.y ^ 2 = 0 := by linarith
      exact pow_eq_zero_iff (by norm_num) |>.mp h2
    have hz0 : v.z = 0 := by
      have h2 : v.z ^ 2 = 0 := by linarith
      exact pow_eq_zero_iff (by norm_num) |>.mp h2
    rcases v with ⟨x, y, z⟩
    simp only at hx0 hy0 hz0
    rw [Vector3.zero, hx0, hy0, hz0]

theorem Vector3.norm_pos {v : Vector3} (hv : v ≠ Vector3.zero) :
    0 < v.norm :=
  Real.sqrt_pos.mpr (Vector3.normSq_pos hv)

theorem Vector3.sq_norm (v : Vector3) : v.norm ^ 2 = v.normSq := by
  unfold Vector3.norm
  exact Real.sq_sqrt v.normSq_nonneg

theorem Vector3.normalize_eq_smul (v : Vector3) :
    v.normalize = Vector3.smul v.norm⁻¹ v := by
  unfold Vector3.normalize Vector3.smul
  simp [div_eq_inv_mul]

theorem Vector3.normSq_normalize {v : Vector3} (hv : v ≠ Vector3.zero) :
    v.normalize.normSq = 1 := by
  have hpos := Vector3.normSq_pos hv
  have hn : v.norm ≠ 0 := ne_of_gt (Vector3.norm_pos hv)
  have h2 := Vector3.sq_norm v
  unfold Vector3.normalize Vector3.normSq
  unfold Vector3.normSq at h2
  field_simp
  linarith

theorem Vector3.norm_normalize {v : Vector3} (hv : v ≠ Vector3.zero) :
    v.normalize.norm = 1 := by
  unfold Vector3.norm
  rw [Vector3.normSq_normalize hv, Real.sqrt_one]

theorem hasWarning_gaussTrace (msg : String) (ii ic : Int) :
    HasWarning [Event.lock, Event.readHam "Name", warnLog msg ii ic,
      Event.unlock] :=
  ⟨msg, ii, ic, by simp [warnLog]⟩

theorem hasErrorTagged_handler (ii ic : Int) :
    HasErrorTagged [spirit_handle_exception_api ii ic] ii ic :=
  ⟨"Caught exception in API call", by simp [spirit_handle_exception_api]⟩

/-- Claim C1: on a state whose image resolves to a non-Heisenberg (Gaussian)
Hamiltonian, each Heisenberg-only setter leaves the whole state (hence
every Hamiltonian parameter field) unchanged, emits a warning-level log
notice, and returns normally (the operations are total functions). -/
theorem C1_unsupported_variant_noop
    (s : State) (ii ic : Int) (n : ℕ) (img : Image) (g : Gaussian)
    (hres : from_indices s ii ic = Except.ok (n, img))
    (hvar : img.hamiltonian.variant = HamVariant.gaussian g)
    (mu_s magnitude aniso : ℝ) (normal anormal : Vector3)
    (k km : ℕ) (jij dij : List ℝ) (chirality : ℤ) (radius : ℝ) :
    ((Hamiltonian_Set_mu_s s mu_s ii ic).1 = s ∧
      HasWarning (Hamiltonian_Set_mu_s s mu_s ii ic).2) ∧
    ((Hamiltonian_Set_Field s magnitude normal ii ic).1 = s ∧
      HasWarning (Hamiltonian_Set_Field s magnitude normal ii ic).2) ∧
    ((Hamiltonian_Set_Anisotropy s aniso anormal ii ic).1 = s ∧
      HasWarning (Hamiltonian_Set_Anisotropy s aniso anormal ii ic).2) ∧
    ((Hamiltonian_Set_Exchange s k jij ii ic).1 = s ∧
      HasWarning (Hamiltonian_Set_Exchange s k jij ii ic).2) ∧
    ((Hamiltonian_Set_DMI s km dij chirality ii ic).1 = s ∧
      HasWarning (Hamiltonian_Set_DMI s km dij chirality ii ic).2) ∧
    ((Hamiltonian_Set_DDI s radius ii ic).1 = s ∧
      HasWarning (Hamiltonian_Set_DDI s radius ii ic).2) := by
  rw [Set_mu_s_eq_gauss hres hvar, Set_Field_eq_gauss hres hvar,
    Set_Anisotropy_eq_gauss hres hvar, Set_Exchange_eq_gauss hres hvar,
    Set_DMI_eq_gauss hres hvar, Set_DDI_eq_gauss hres hvar]
  exact ⟨⟨rfl, hasWarning_gaussTrace _ ii ic⟩,
    ⟨rfl, hasWarning_gaussTrace _ ii ic⟩,
    ⟨rfl, hasWarning_gaussTrace _ ii ic⟩,
    ⟨rfl, hasWarning_gaussTrace _ ii ic⟩,
    ⟨rfl, hasWarning_gaussTrace _ ii ic⟩,
    ⟨rfl, hasWarning_gaussTrace _ ii ic⟩⟩

/-- Witness for C1: the six Heisenberg-only setters evaluated against the
concrete Gaussian-variant sample state. -/
theorem C1_unsupported_variant_noop_witness :
    ((Hamiltonian_Set_mu_s gaussState 2 0 0).1 = gaussState ∧
      HasWarning (Hamiltonian_Set_mu_s gaussState 2 0 0).2) ∧
    ((Hamiltonian_Set_Field gaussState 3 ⟨1, 0, 0⟩ 0 0).1 = gaussState ∧
      HasWarning (Hamiltonian_Set_Field gaussState 3 ⟨1, 0, 0⟩ 0 0).2) ∧
    ((Hamiltonian_Set_Anisotropy gaussState 4 ⟨0, 1, 0⟩ 0 0).1 = gaussState ∧
      HasWarning (Hamiltonian_Set_Anisotropy gaussState 4 ⟨0, 1, 0⟩ 0 0).2) ∧
    ((Hamiltonian_Set_Exchange gaussState 1 [7] 0 0).1 = gaussState ∧
      HasWarning (Hamiltonian_Set_Exchange gaussState 1 [7] 0 0).2) ∧
    ((Hamiltonian_Set_DMI gaussState 1 [8] 1 0 0).1 = gaussState ∧
      HasWarning (Hamiltonian_Set_DMI gaussState 1 [8] 1 0 0).2) ∧
    ((Hamiltonian_Set_DDI gaussState 5 0 0).1 = gaussState ∧
      HasWarning (Hamiltonian_Set_DDI gaussState 5 0 0).2) :=
  C1_unsupported_variant_noop gaussState 0 0 0 gaussImage gaussSample
    (by rfl) (by rfl) 2 3 4 ⟨1, 0, 0⟩ ⟨0, 1, 0⟩ 1 1 [7] [8] 1 5

/-- Claim C2: the trace of every mutation operation acquires the image lock before
any Hamiltonian field access, performs all its accesses while holding it,
and releases it before returning, while the trace of every getter never
touches the lock. -/
theorem C2_lock_protocol
    (s : State) (ii ic : Int) (n : ℕ) (img : Image)
    (hres : from_indices s ii ic = Except.ok (n, img))
    (p : Bool × Bool × Bool) (mu_s magnitude aniso : ℝ)
    (normal anormal : Vector3) (k km : ℕ) (jij dij : List ℝ)
    (chirality : ℤ) (radius : ℝ) :
    LockDiscipline (Hamiltonian_Set_Boundary_Conditions s p ii ic).2 ∧
    LockDiscipline (Hamiltonian_Set_mu_s s mu_s ii ic).2 ∧
    LockDiscipline (Hamiltonian_Set_Field s magnitude normal ii ic).2 ∧
    LockDiscipline (Hamiltonian_Set_Anisotropy s aniso anormal ii ic).2 ∧
    LockDiscipline (Hamiltonian_Set_Exchange s k jij ii ic).2 ∧
    LockDiscipline (Hamiltonian_Set_DMI s km dij chirality ii ic).2 ∧
    LockDiscipline (Hamiltonian_Set_DDI s radius ii ic).2 ∧
    LockFree (Hamiltonian_Get_Name s ii ic).2 ∧
    LockFree (Hamiltonian_Get_Boundary_Conditions s ii ic).2 ∧
    LockFree (Hamiltonian_Get_mu_s s ii ic).2 ∧
    LockFree (Hamiltonian_Get_Field s ii ic).2 ∧
    LockFree (Hamiltonian_Get_Anisotropy s ii ic).2 ∧
    LockFree (Hamiltonian_Get_Exchange_Shells s ii ic).2 ∧
    LockFree (Hamiltonian_Get_Exchange_N_Pairs s ii ic).2 ∧
    LockFree (Hamiltonian_Get_Exchange_Pairs s ii ic).2 ∧
    LockFree (Hamiltonian_Get_DMI_Shells s ii ic).2 ∧
    LockFree (Hamiltonian_Get_DMI_N_Pairs s ii ic).2 ∧
    LockFree (Hamiltonian_Get_DDI s ii ic).2 :=
  ⟨lockDiscipline_Set_Boundary_Conditions hres p,
    lockDiscipline_Set_mu_s hres mu_s,
    lockDiscipline_Set_Field hres magnitude normal,
    lockDiscipline_Set_Anisotropy hres aniso anormal,
    lockDiscipline_Set_Exchange hres k jij,
    lockDiscipline_Set_DMI hres km dij chirality,
    lockDiscipline_Set_DDI hres radius,
    lockFree_Get_Name hres,
    lockFree_Get_Boundary_Conditions hres,
    lockFree_Get_mu_s hres,
    lockFree_Get_Field hres,
    lockFree_Get_Anisotropy hres,
    lockFree_Get_Exchange_Shells hres,
    lockFree_Get_Exchange_N_Pairs hres,
    lockFree_Get_Exchange_Pairs hres,
    lockFree_Get_DMI_Shells hres,
    lockFree_Get_DMI_N_Pairs hres,
    lockFree_Get_DDI hres⟩

/-- Witness for C2: the lock protocol evaluated on the concrete Heisenberg
sample state with concrete setter arguments. -/
theorem C2_lock_protocol_witness :
    LockDiscipline (Hamiltonian_Set_Boundary_Conditions heisState
      (true, false, true) 0 0).2 ∧
    LockDiscipline (Hamiltonian_Set_mu_s heisState 2 0 0).2 ∧
    LockDiscipline (Hamiltonian_Set_Field heisState 3 ⟨0, 0, 1⟩ 0 0).2 ∧
    LockDiscipline (Hamiltonian_Set_Anisotropy heisState 4 ⟨1, 0, 0⟩ 0 0).2 ∧
    LockDiscipline (Hamiltonian_Set_Exchange heisState 1 [7] 0 0).2 ∧
    LockDiscipline (Hamiltonian_Set_DMI heisState 1 [8] 1 0 0).2 ∧
    LockDiscipline (Hamiltonian_Set_DDI heisState 5 0 0).2 ∧
    LockFree (Hamiltonian_Get_Name heisState 0 0).2 ∧
    LockFree (Hamiltonian_Get_Boundary_Conditions heisState 0 0).2 ∧
    LockFree (Hamiltonian_Get_mu_s heisState 0 0).2 ∧
    LockFree (Hamiltonian_Get_Field heisState 0 0).2 ∧
    LockFree (Hamiltonian_Get_Anisotropy heisState 0 0).2 ∧
    LockFree (Hamiltonian_Get_Exchange_Shells heisState 0 0).2 ∧
    LockFree (Hamiltonian_Get_Exchange_N_Pairs heisState 0 0).2 ∧
    LockFree (Hamiltonian_Get_Exchange_Pairs heisState 0 0).2 ∧
    LockFree (Hamiltonian_Get_DMI_Shells heisState 0 0).2 ∧
    LockFree (Hamiltonian_Get_DMI_N_Pairs heisState 0 0).2 ∧
    LockFree (Hamiltonian_Get_DDI heisState 0 0).2 :=
  C2_lock_protocol heisState 0 0 0 heisImage (by rfl) (true, false, true)
    2 3 4 ⟨0, 0, 1⟩ ⟨1, 0, 0⟩ 1 1 [7] [8] 1 5

/-- Claim C3: when image/chain resolution fails, every boundary operation
returns normally with a safe default — Hamiltonian_Get_Name returns null,
the pair-count getters return 0, and the void setters leave the state
unchanged — and each logs an error-level diagnostic tagged with the
image/chain identity. -/
theorem C3_fault_isolation
    (s : State) (ii ic : Int)
    (hfail : from_indices s ii ic = Except.error SpiritError.resolutionFailure)
    (p : Bool × Bool × Bool) (mu_s magnitude aniso : ℝ)
    (normal anormal : Vector3) (k km : ℕ) (jij dij : List ℝ)
    (chirality : ℤ) (radius : ℝ) :
    ((Hamiltonian_Get_Name s ii ic).1 = none ∧
      HasErrorTagged (Hamiltonian_Get_Name s ii ic).2 ii ic) ∧
    ((Hamiltonian_Get_Exchange_N_Pairs s ii ic).1 = 0 ∧
      HasErrorTagged (Hamiltonian_Get_Exchange_N_Pairs s ii ic).2 ii ic) ∧
    ((Hamiltonian_Get_DMI_N_Pairs s ii ic).1 = 0 ∧
      HasErrorTagged (Hamiltonian_Get_DMI_N_Pairs s ii ic).2 ii ic) ∧
    ((Hamiltonian_Set_Boundary_Conditions s p ii ic).1 = s ∧
      HasErrorTagged (Hamiltonian_Set_Boundary_Conditions s p ii ic).2 ii ic) ∧
    ((Hamiltonian_Set_mu_s s mu_s ii ic).1 = s ∧
      HasErrorTagged (Hamiltonian_Set_mu_s s mu_s ii ic).2 ii ic) ∧
    ((Hamiltonian_Set_Field s magnitude normal ii ic).1 = s ∧
      HasErrorTagged (Hamiltonian_Set_Field s magnitude normal ii ic).2 ii ic) ∧
    ((Hamiltonian_Set_Anisotropy s aniso anormal ii ic).1 = s ∧
      HasErrorTagged (Hamiltonian_Set_Anisotropy s aniso anormal ii ic).2 ii ic) ∧
    ((Hamiltonian_Set_Exchange s k jij ii ic).1 = s ∧
      HasErrorTagged (Hamiltonian_Set_Exchange s k jij ii ic).2 ii ic) ∧
    ((Hamiltonian_Set_DMI s km dij chirality ii ic).1 = s ∧
      HasErrorTagged (Hamiltonian_Set_DMI s km dij chirality ii ic).2 ii ic) ∧
    ((Hamiltonian_Set_DDI s radius ii ic).1 = s ∧
      HasErrorTagged (Hamiltonian_Set_DDI s radius ii ic).2 ii ic) := by
  simp only [Hamiltonian_Get_Name, Hamiltonian_Get_Exchange_N_Pairs,
    Hamiltonian_Get_DMI_N_Pairs, Hamiltonian_Set_Boundary_Conditions,
    Hamiltonian_Set_mu_s, Hamiltonian_Set_Field, Hamiltonian_Set_Anisotropy,
    Hamiltonian_Set_Exchange, Hamiltonian_Set_DMI, Hamiltonian_Set_DDI, hfail]
  exact ⟨⟨trivial, hasErrorTagged_handler ii ic⟩,
    ⟨trivial, hasErrorTagged_handler ii ic⟩,
    ⟨trivial, hasErrorTagged_handler ii ic⟩,
    ⟨trivial, hasErrorTagged_handler ii ic⟩,
    ⟨trivial, hasErrorTagged_handler ii ic⟩,
    ⟨trivial, hasErrorTagged_handler ii ic⟩,
    ⟨trivial, hasErrorTagged_handler ii ic⟩,
    ⟨trivial, hasErrorTagged_handler ii ic⟩,
    ⟨trivial, hasErrorTagged_handler ii ic⟩,
    ⟨trivial, hasErrorTagged_handler ii ic⟩⟩

/-- Witness for C3: the boundary operations evaluated on a state with no
images, where resolution fails. -/
theorem C3_fault_isolation_witness :
    ((Hamiltonian_Get_Name emptyState 0 0).1 = none ∧
      HasErrorTagged (Hamiltonian_Get_Name emptyState 0 0).2 0 0) ∧
    ((Hamiltonian_Get_Exchange_N_Pairs emptyState 0 0).1 = 0 ∧
      HasErrorTagged (Hamiltonian_Get_Exchange_N_Pairs emptyState 0 0).2 0 0) ∧
    ((Hamiltonian_Get_DMI_N_Pairs emptyState 0 0).1 = 0 ∧
      HasErrorTagged (Hamiltonian_Get_DMI_N_Pairs emptyState 0 0).2 0 0) ∧
    ((Hamiltonian_Set_Boundary_Conditions emptyState (true, true, true) 0 0).1 =
        emptyState ∧
      HasErrorTagged
        (Hamiltonian_Set_Boundary_Conditions emptyState (true, true, true) 0 0).2
        0 0) ∧
    ((Hamiltonian_Set_mu_s emptyState 1 0 0).1 = emptyState ∧
      HasErrorTagged (Hamiltonian_Set_mu_s emptyState 1 0 0).2 0 0) ∧
    ((Hamiltonian_Set_Field emptyState 1 ⟨0, 0, 1⟩ 0 0).1 = emptyState ∧
      HasErrorTagged (Hamiltonian_Set_Field emptyState 1 ⟨0, 0, 1⟩ 0 0).2 0 0) ∧
    ((Hamiltonian_Set_Anisotropy emptyState 1 ⟨0, 0, 1⟩ 0 0).1 = emptyState ∧
      HasErrorTagged
        (Hamiltonian_Set_Anisotropy emptyState 1 ⟨0, 0, 1⟩ 0 0).2 0 0) ∧
    ((Hamiltonian_Set_Exchange emptyState 1 [1] 0 0).1 = emptyState ∧
      HasErrorTagged (Hamiltonian_Set_Exchange emptyState 1 [1] 0 0).2 0 0) ∧
    ((Hamiltonian_Set_DMI emptyState 1 [1] 1 0 0).1 = emptyState ∧
      HasErrorTagged (Hamiltonian_Set_DMI emptyState 1 [1] 1 0 0).2 0 0) ∧
    ((Hamiltonian_Set_DDI emptyState 1 0 0).1 = emptyState ∧
      HasErrorTagged (Hamiltonian_Set_DDI emptyState 1 0 0).2 0 0) :=
  C3_fault_isolation emptyState 0 0 (by rfl) (true, true, true) 1 1 1
    ⟨0, 0, 1⟩ ⟨0, 0, 1⟩ 1 1 [1] [1] 1 1

/-- Claim C9: whenever the image resolves, the explicit pair getters are stubs:
the pair-count getters return 0 and warn that fetching pairs is not yet
implemented, regardless of the variant, and Hamiltonian_Get_Exchange_Pairs
writes nothing to its output arrays. -/
theorem C9_pair_getters_stubbed
    (s : State) (ii ic : Int) (n : ℕ) (img : Image)
    (hres : from_indices s ii ic = Except.ok (n, img)) :
    ((Hamiltonian_Get_Exchange_N_Pairs s ii ic).1 = 0 ∧
      warnLog (img.hamiltonian.name ++
        " Hamiltonian: fetching exchange pairs is not yet implemented...")
        ii ic ∈ (Hamiltonian_Get_Exchange_N_Pairs s ii ic).2) ∧
    ((Hamiltonian_Get_DMI_N_Pairs s ii ic).1 = 0 ∧
      warnLog (img.hamiltonian.name ++
        " Hamiltonian: fetching DMI pairs is not yet implemented...")
        ii ic ∈ (Hamiltonian_Get_DMI_N_Pairs s ii ic).2) ∧
    ((Hamiltonian_Get_Exchange_Pairs s ii ic).1 = none ∧
      warnLog (img.hamiltonian.name ++
        " Hamiltonian: fetching exchange pairs is not yet implemented...")
        ii ic ∈ (Hamiltonian_Get_Exchange_Pairs s ii ic).2) := by
  simp only [Hamiltonian_Get_Exchange_N_Pairs, Hamiltonian_Get_DMI_N_Pairs,
    Hamiltonian_Get_Exchange_Pairs, hres]
  simp

/-- Witness for C9: the stub getters evaluated on the concrete Gaussian
sample state. -/
theorem C9_pair_getters_stubbed_witness :
    ((Hamiltonian_Get_Exchange_N_Pairs gaussState 0 0).1 = 0 ∧
      warnLog (gaussImage.hamiltonian.name ++
        " Hamiltonian: fetching exchange pairs is not yet implemented...")
        0 0 ∈ (Hamiltonian_Get_Exchange_N_Pairs gaussState 0 0).2) ∧
    ((Hamiltonian_Get_DMI_N_Pairs gaussState 0 0).1 = 0 ∧
      warnLog (gaussImage.hamiltonian.name ++
        " Hamiltonian: fetching DMI pairs is not yet implemented...")
        0 0 ∈ (Hamiltonian_Get_DMI_N_Pairs gaussState 0 0).2) ∧
    ((Hamiltonian_Get_Exchange_Pairs gaussState 0 0).1 = none ∧
      warnLog (gaussImage.hamiltonian.name ++
        " Hamiltonian: fetching exchange pairs is not yet implemented...")
        0 0 ∈ (Hamiltonian_Get_Exchange_Pairs gaussState 0 0).2) :=
  C9_pair_getters_stubbed gaussState 0 0 0 gaussImage (by rfl)

/-- Claim C5: for every Heisenberg image, every k and every k-length magnitude
list jij, Hamiltonian_Set_Exchange with k shells followed, with no
intervening mutation, by Hamiltonian_Get_Exchange_Shells yields n_shells
= k and the same k magnitude values. -/
theorem C5_exchange_shell_roundtrip
    (s : State) (ii ic : Int) (n : ℕ) (img : Image) (h : Heisenberg)
    (hres : from_indices s ii ic = Except.ok (n, img))
    (hvar : img.hamiltonian.variant = HamVariant.heisenberg h)
    (k : ℕ) (jij : List ℝ) (hlen : jij.length = k) :
    (Hamiltonian_Get_Exchange_Shells
      ((Hamiltonian_Set_Exchange s k jij ii ic).1) ii ic).1 = some (k, jij) := by
  subst hlen
  simp only [Set_Exchange_eq_heis hres hvar, Hamiltonian_Get_Exchange_Shells,
    from_indices_setImage hres, Update_Interactions, Update_Energy_Contributions,
    List.take_length]

/-- Witness for C5: the round trip evaluated on a concrete two-shell input. -/
theorem C5_exchange_shell_roundtrip_witness :
    (Hamiltonian_Get_Exchange_Shells
      ((Hamiltonian_Set_Exchange heisState 2 [1, 2] 0 0).1) 0 0).1 =
      some (2, [1, 2]) :=
  C5_exchange_shell_roundtrip heisState 0 0 0 heisImage heisSample (by rfl)
    (by rfl) 2 [1, 2] (by rfl)

/-- Claim C6: after Hamiltonian_Set_Exchange (resp. Hamiltonian_Set_DMI) on a
Heisenberg image, the explicit pair-override fields exchange_pairs_in and
exchange_magnitudes_in (resp. dmi_pairs_in, dmi_magnitudes_in,
dmi_normals_in) are empty, whatever their previous contents. -/
theorem C6_explicit_pair_overrides_cleared
    (s : State) (ii ic : Int) (n : ℕ) (img : Image) (h : Heisenberg)
    (hres : from_indices s ii ic = Except.ok (n, img))
    (hvar : img.hamiltonian.variant = HamVariant.heisenberg h)
    (k km : ℕ) (jij dij : List ℝ) (chirality : ℤ) :
    (∃ h1, ((Hamiltonian_Set_Exchange s k jij ii ic).1).heisAt n = some h1 ∧
      h1.exchange_pairs_in = [] ∧ h1.exchange_magnitudes_in = []) ∧
    (∃ h2, ((Hamiltonian_Set_DMI s km dij chirality ii ic).1).heisAt n = some h2 ∧
      h2.dmi_pairs_in = [] ∧ h2.dmi_magnitudes_in = [] ∧ h2.dmi_normals_in = []) := by
  have hlt := from_indices_lt hres
  constructor
  · refine ⟨Update_Interactions img.geometry
      { h with
        exchange_shell_magnitudes := jij.take k
        exchange_pairs_in := []
        exchange_magnitudes_in := [] }, ?_, ?_, ?_⟩
    · simp only [Set_Exchange_eq_heis hres hvar]
      rw [heisAt_setImage _ _ _ hlt]
      rfl
    · simp [Update_Interactions, Update_Energy_Contributions]
    · simp [Update_Interactions, Update_Energy_Contributions]
  · refine ⟨Update_Interactions img.geometry
      { h with
        dmi_shell_magnitudes := dij.take km
        dmi_shell_chirality := chirality
        dmi_pairs_in := []
        dmi_magnitudes_in := []
        dmi_normals_in := [] }, ?_, ?_, ?_, ?_⟩
    · simp only [Set_DMI_eq_heis hres hvar]
      rw [heisAt_setImage _ _ _ hlt]
      rfl
    · simp [Update_Interactions, Update_Energy_Contributions]
    · simp [Update_Interactions, Update_Energy_Contributions]
    · simp [Update_Interactions, Update_Energy_Contributions]

/-- Witness for C6: evaluated on a concrete image whose explicit pair
overrides are initially non-empty. -/
theorem C6_explicit_pair_overrides_cleared_witness :
    (∃ h1, ((Hamiltonian_Set_Exchange heisState 1 [4] 0 0).1).heisAt 0 = some h1 ∧
      h1.exchange_pairs_in = [] ∧ h1.exchange_magnitudes_in = []) ∧
    (∃ h2, ((Hamiltonian_Set_DMI heisState 1 [6] 1 0 0).1).heisAt 0 = some h2 ∧
      h2.dmi_pairs_in = [] ∧ h2.dmi_magnitudes_in = [] ∧ h2.dmi_normals_in = []) :=
  C6_explicit_pair_overrides_cleared heisState 0 0 0 heisImage heisSample
    (by rfl) (by rfl) 1 1 [4] [6] 1

/-- Claim C4: for any non-zero input direction vector, after
Hamiltonian_Set_Field (resp. Hamiltonian_Set_Anisotropy) on a Heisenberg
image, the stored external_field_normal (resp. every entry of
anisotropy_normals) has unit norm and is a positive scalar multiple of the
input vector. -/
theorem C4_directions_normalized
    (s : State) (ii ic : Int) (n : ℕ) (img : Image) (h : Heisenberg)
    (hres : from_indices s ii ic = Except.ok (n, img))
    (hvar : img.hamiltonian.variant = HamVariant.heisenberg h)
    (magnitude aniso : ℝ) (v : Vector3) (hv : v ≠ Vector3.zero) :
    (∃ h1, ((Hamiltonian_Set_Field s magnitude v ii ic).1).heisAt n = some h1 ∧
      h1.external_field_normal.norm = 1 ∧
      ∃ t, 0 < t ∧ h1.external_field_normal = Vector3.smul t v) ∧
    (∃ h2, ((Hamiltonian_Set_Anisotropy s aniso v ii ic).1).heisAt n = some h2 ∧
      ∀ u ∈ h2.anisotropy_normals,
        u.norm = 1 ∧ ∃ t, 0 < t ∧ u = Vector3.smul t v) := by
  have hlt := from_indices_lt hres
  constructor
  · refine ⟨Update_Energy_Contributions
      { h with
        external_field_magnitude := magnitude * mu_B
        external_field_normal := v.normalize }, ?_, ?_, ?_⟩
    · simp only [Set_Field_eq_heis hres hvar]
      rw [heisAt_setImage _ _ _ hlt]
      rfl
    · simp only [Update_Energy_Contributions]
      exact Vector3.norm_normalize hv
    · refine ⟨v.norm⁻¹, inv_pos.mpr (Vector3.norm_pos hv), ?_⟩
      simp only [Update_Energy_Contributions]
      exact Vector3.normalize_eq_smul v
  · refine ⟨Update_Energy_Contributions
      { h with
        anisotropy_indices :=
          (List.range img.geometry.n_cell_atoms).map fun k => (k : ℤ)
        anisotropy_magnitudes := List.replicate img.geometry.n_cell_atoms aniso
        anisotropy_normals := List.replicate img.nos v.normalize }, ?_, ?_⟩
    · simp only [Set_Anisotropy_eq_heis hres hvar]
      rw [heisAt_setImage _ _ _ hlt]
      rfl
    · intro u hu
      have hmem : u ∈ List.replicate img.nos v.normalize := by
        simpa [Update_Energy_Contributions] using hu
      have hu2 := List.eq_of_mem_replicate hmem
      subst hu2
      exact ⟨Vector3.norm_normalize hv,
        v.norm⁻¹, inv_pos.mpr (Vector3.norm_pos hv), Vector3.normalize_eq_smul v⟩

/-- Witness for C4: the directions stored after setting field and anisotropy
with the concrete non-zero, non-unit input (0, 0, 2). -/
theorem C4_directions_normalized_witness :
    (∃ h1, ((Hamiltonian_Set_Field heisState 1 ⟨0, 0, 2⟩ 0 0).1).heisAt 0 =
        some h1 ∧
      h1.external_field_normal.norm = 1 ∧
      ∃ t, 0 < t ∧ h1.external_field_normal = Vector3.smul t ⟨0, 0, 2⟩) ∧
    (∃ h2, ((Hamiltonian_Set_Anisotropy heisState 2 ⟨0, 0, 2⟩ 0 0).1).heisAt 0 =
        some h2 ∧
      ∀ u ∈ h2.anisotropy_normals,
        u.norm = 1 ∧ ∃ t, 0 < t ∧ u = Vector3.smul t ⟨0, 0, 2⟩) :=
  C4_directions_normalized heisState 0 0 0 heisImage heisSample (by rfl)
    (by rfl) 1 2 ⟨0, 0, 2⟩
    (by
      intro hEq
      have h2 := congrArg Vector3.z hEq
      norm_num [Vector3.zero] at h2)

/-- Claim C10: whenever the stored external_field_magnitude of a Heisenberg
image is ≤ 0 (for example right after Hamiltonian_Set_Field with magnitude
0), Hamiltonian_Get_Field writes magnitude 0 and the sentinel direction
(0, 0, 1), discarding the stored direction. -/
theorem C10_nonpositive_field_sentinel
    (s : State) (ii ic : Int) (n : ℕ) (img : Image) (h : Heisenberg)
    (hres : from_indices s ii ic = Except.ok (n, img))
    (hvar : img.hamiltonian.variant = HamVariant.heisenberg h)
    (hmag : h.external_field_magnitude ≤ 0) (d : Vector3) :
    (Hamiltonian_Get_Field s ii ic).1 = some (0, ⟨0, 0, 1⟩) ∧
    (Hamiltonian_Get_Field ((Hamiltonian_Set_Field s 0 d ii ic).1) ii ic).1 =
      some (0, ⟨0, 0, 1⟩) := by
  constructor
  · simp only [Hamiltonian_Get_Field, hres, hvar]
    rw [if_neg (not_lt.mpr hmag)]
  · simp only [Set_Field_eq_heis hres hvar, Hamiltonian_Get_Field,
      from_indices_setImage hres, Update_Energy_Contributions]
    rw [if_neg (by norm_num : ¬ ((0:ℝ) * mu_B > 0))]

/-- C10 witness: getting the field after setting it with magnitude 0 and
direction (1, 0, 0) yields magnitude 0 and the sentinel (0, 0, 1). -/
theorem C10_nonpositive_field_sentinel_witness :
    (Hamiltonian_Get_Field heisState 0 0).1 = some (0, ⟨0, 0, 1⟩) ∧
    (Hamiltonian_Get_Field ((Hamiltonian_Set_Field heisState 0 ⟨1, 0, 0⟩ 0 0).1)
      0 0).1 = some (0, ⟨0, 0, 1⟩) :=
  C10_nonpositive_field_sentinel heisState 0 0 0 heisImage heisSample
    (by rfl) (by rfl) (by norm_num [heisSample]) ⟨1, 0, 0⟩

/-- Counterexample for C7: setting the field with magnitude −1 on the concrete
Heisenberg sample stores −mu_B ≤ 0, so the subsequent get returns
magnitude 0, not −1 — the claimed round trip fails for negative
magnitudes. -/
theorem C7_field_roundtrip_counterexample :
    (Hamiltonian_Get_Field
      ((Hamiltonian_Set_Field heisState (-1) ⟨0, 0, 1⟩ 0 0).1) 0 0).1 =
      some (0, ⟨0, 0, 1⟩) ∧ (0 : ℝ) ≠ -1 := by
  constructor
  · have hres : from_indices heisState 0 0 = Except.ok (0, heisImage) := rfl
    have hvar : heisImage.hamiltonian.variant =
        HamVariant.heisenberg heisSample := rfl
    simp only [Set_Field_eq_heis hres hvar, Hamiltonian_Get_Field,
      from_indices_setImage hres, Update_Energy_Contributions]
    rw [if_neg (by norm_num [mu_B] : ¬ ((-1:ℝ) * mu_B > 0))]
  · norm_num

/-- Claim C7 as amended: Hamiltonian_Set_Field on a Heisenberg image
stores M · mu_B into external_field_magnitude for every M; for every
M ≥ 0 a subsequent Hamiltonian_Get_Field returns the magnitude M in the
unit of the caller (the conversion is divided back out), and for every
M < 0 the stored magnitude is non-positive, so the get returns the
zero-magnitude sentinel (0, (0, 0, 1)) instead of M. -/
theorem C7_field_magnitude_roundtrip
    (s : State) (ii ic : Int) (n : ℕ) (img : Image) (h : Heisenberg)
    (hres : from_indices s ii ic = Except.ok (n, img))
    (hvar : img.hamiltonian.variant = HamVariant.heisenberg h)
    (M : ℝ) (d : Vector3) :
    (∃ h1, ((Hamiltonian_Set_Field s M d ii ic).1).heisAt n = some h1 ∧
      h1.external_field_magnitude = M * mu_B) ∧
    (0 ≤ M → ∃ d2, (Hamiltonian_Get_Field
      ((Hamiltonian_Set_Field s M d ii ic).1) ii ic).1 = some (M, d2)) ∧
    (M < 0 → (Hamiltonian_Get_Field
      ((Hamiltonian_Set_Field s M d ii ic).1) ii ic).1 =
      some (0, ⟨0, 0, 1⟩)) := by
  have hlt := from_indices_lt hres
  have hmu : (0:ℝ) < mu_B := by norm_num [mu_B]
  refine ⟨?_, ?_, ?_⟩
  · refine ⟨Update_Energy_Contributions
      { h with
        external_field_magnitude := M * mu_B
        external_field_normal := d.normalize }, ?_, ?_⟩
    · simp only [Set_Field_eq_heis hres hvar]
      rw [heisAt_setImage _ _ _ hlt]
      rfl
    · simp [Update_Energy_Contributions]
  · intro hM
    rcases eq_or_lt_of_le hM with hM0 | hMpos
    · refine ⟨⟨0, 0, 1⟩, ?_⟩
      rw [← hM0]
      simp only [Set_Field_eq_heis hres hvar, Hamiltonian_Get_Field,
        from_indices_setImage hres, Update_Energy_Contributions]
      rw [if_neg (by norm_num : ¬ ((0:ℝ) * mu_B > 0))]
    · refine ⟨d.normalize, ?_⟩
      simp only [Set_Field_eq_heis hres hvar, Hamiltonian_Get_Field,
        from_indices_setImage hres, Update_Energy_Contributions]
      rw [if_pos (by positivity : (0:ℝ) < M * mu_B)]
      have hdiv : M * mu_B / mu_B = M := by
        field_simp
      rw [hdiv]
  · intro hM
    have hneg : M * mu_B < 0 := mul_neg_of_neg_of_pos hM hmu
    simp only [Set_Field_eq_heis hres hvar, Hamiltonian_Get_Field,
      from_indices_setImage hres, Update_Energy_Contributions]
    rw [if_neg (not_lt.mpr (le_of_lt hneg))]

/-- Witness for C7: the amended behavior evaluated at both a positive
magnitude (3 round-trips) and a negative one (−2 yields the sentinel). -/
theorem C7_field_magnitude_roundtrip_witness :
    (∃ h1, ((Hamiltonian_Set_Field heisState 3 ⟨0, 1, 0⟩ 0 0).1).heisAt 0 =
        some h1 ∧ h1.external_field_magnitude = 3 * mu_B) ∧
    (∃ d2, (Hamiltonian_Get_Field
      ((Hamiltonian_Set_Field heisState 3 ⟨0, 1, 0⟩ 0 0).1) 0 0).1 =
      some (3, d2)) ∧
    (Hamiltonian_Get_Field
      ((Hamiltonian_Set_Field heisState (-2) ⟨0, 1, 0⟩ 0 0).1) 0 0).1 =
      some (0, ⟨0, 0, 1⟩) := by
  have hpos := C7_field_magnitude_roundtrip heisState 0 0 0 heisImage
    heisSample (by rfl) (by rfl) 3 ⟨0, 1, 0⟩
  have hneg := C7_field_magnitude_roundtrip heisState 0 0 0 heisImage
    heisSample (by rfl) (by rfl) (-2) ⟨0, 1, 0⟩
  exact ⟨hpos.1, hpos.2.1 (by norm_num), hneg.2.2 (by norm_num)⟩

/-- Claim C8: two successive Hamiltonian_Set_DDI calls with the same radius on
the same (unchanged) geometry of the same Heisenberg image install
identical ddi_pairs, ddi_magnitudes and ddi_normals lists — the
regeneration is a deterministic function of geometry and radius. -/
theorem C8_ddi_regeneration_deterministic
    (s : State) (ii ic : Int) (n : ℕ) (img : Image) (h : Heisenberg)
    (hres : from_indices s ii ic = Except.ok (n, img))
    (hvar : img.hamiltonian.variant = HamVariant.heisenberg h)
    (radius : ℝ) :
    (∃ h1, ((Hamiltonian_Set_DDI s radius ii ic).1).heisAt n = some h1) ∧
    (((Hamiltonian_Set_DDI ((Hamiltonian_Set_DDI s radius ii ic).1)
        radius ii ic).1).heisAt n).map
        (fun x => (x.ddi_pairs, x.ddi_magnitudes, x.ddi_normals)) =
      (((Hamiltonian_Set_DDI s radius ii ic).1).heisAt n).map
        (fun x => (x.ddi_pairs, x.ddi_magnitudes, x.ddi_normals)) := by
  have hlt := from_indices_lt hres
  have hlt2 : n < ((Hamiltonian_Set_DDI s radius ii ic).1).images.length := by
    simp only [Set_DDI_eq_heis hres hvar, State.setImage, List.length_set]
    exact hlt
  have hkey : ((Hamiltonian_Set_DDI ((Hamiltonian_Set_DDI s radius ii ic).1)
      radius ii ic).1).heisAt n =
      ((Hamiltonian_Set_DDI s radius ii ic).1).heisAt n := by
    have hres2 := from_indices_setImage hres
      { img with hamiltonian :=
          { img.hamiltonian with
            variant :=
              HamVariant.heisenberg
                (Update_Energy_Contributions
                  { h with
                    ddi_pairs := Get_Pairs_in_Radius img.geometry radius
                    ddi_magnitudes :=
                      (Get_Pairs_in_Radius img.geometry radius).map fun p =>
                        (DDI_from_Pair img.geometry p).1
                    ddi_normals :=
                      (Get_Pairs_in_Radius img.geometry radius).map fun p =>
                        (DDI_from_Pair img.geometry p).2 }) } }
    have hlt2b : n < ((Hamiltonian_Set_DDI s radius ii ic).1).images.length :=
      hlt2
    rw [Set_DDI_eq_heis hres hvar] at hlt2b ⊢
    rw [Set_DDI_eq_heis hres2 rfl]
    rw [heisAt_setImage _ _ _ hlt2b, heisAt_setImage _ _ _ hlt]
    rfl
  constructor
  · refine ⟨Update_Energy_Contributions
      { h with
        ddi_pairs := Get_Pairs_in_Radius img.geometry radius
        ddi_magnitudes := (Get_Pairs_in_Radius img.geometry radius).map fun p =>
          (DDI_from_Pair img.geometry p).1
        ddi_normals := (Get_Pairs_in_Radius img.geometry radius).map fun p =>
          (DDI_from_Pair img.geometry p).2 }, ?_⟩
    simp only [Set_DDI_eq_heis hres hvar]
    rw [heisAt_setImage _ _ _ hlt]
    rfl
  · rw [hkey]

/-- Witness for C8: two identical dipolar regenerations on the concrete
two-site sample geometry with radius 2. -/
theorem C8_ddi_regeneration_deterministic_witness :
    (∃ h1, ((Hamiltonian_Set_DDI heisState 2 0 0).1).heisAt 0 = some h1) ∧
    (((Hamiltonian_Set_DDI ((Hamiltonian_Set_DDI heisState 2 0 0).1)
        2 0 0).1).heisAt 0).map
        (fun x => (x.ddi_pairs, x.ddi_magnitudes, x.ddi_normals)) =
      (((Hamiltonian_Set_DDI heisState 2 0 0).1).heisAt 0).map
        (fun x => (x.ddi_pairs, x.ddi_magnitudes, x.ddi_normals)) :=
  C8_ddi_regeneration_deterministic heisState 0 0 0 heisImage heisSample
    (by rfl) (by rfl) 2

end Spirit
